import Mathlib

set_option linter.unusedVariables false

/-!
Shallow embedding of the cassandra repository.

The repository contains two implementations of a Bayesian-network engine:

* a discrete core in src/cassandra/core (node.py, factor.py, network.py,
  algorithms.py), in which factors are numpy arrays over discrete scopes, and
* a continuous single-file implementation in cassandra/network.py, in which
  factors carry probability-density closures over interval-valued variables.

Python floats are modelled by exact rationals, Python dicts by association
lists in insertion order, numpy arrays by a flat list of rationals together
with a shape (C order, as numpy stores them), and raised exceptions by an
Except monad. External numerical primitives that the code consumes
(scipy.integrate.quad and scipy.stats.norm.pdf) are taken as function
parameters, mirroring section 6 of the specification, which lists them as
consumed external interfaces.
-/

/-- Python exception outcomes raised by the embedded code. The constructor
valueRangeError models the ValueError messages that interpolate the offending
variable name and value into the text. -/
inductive PyErr where
  | valueError (msg : String)
  | typeError (msg : String)
  | keyError (msg : String)
  | attributeError (cls : String) (attr : String)
  | assertionError
  | valueRangeError (ident : String) (value : ℤ)
  | valueErrorFor (ident : String) (msg : String)
deriving Repr, DecidableEq

/-- Keys of an association list, in order, modelling dict.keys(). -/
def keysOf {α : Type} (l : List (String × α)) : List String :=
  l.map Prod.fst

/-- Equality of two key collections as sets, modelling set(xs) == set(ys). -/
def sameKeySet (xs ys : List String) : Bool :=
  xs.all (fun k => decide (k ∈ ys)) && ys.all (fun k => decide (k ∈ xs))

/-- Dict lookup that raises KeyError on a missing key, modelling d[k]. -/
def lookupE {α : Type} (l : List (String × α)) (k : String) : Except PyErr α :=
  match l.lookup k with
  | some v => .ok v
  | none => .error (.keyError k)

/-- Dict insertion: an existing key keeps its position and is overwritten, a
new key is appended, exactly as Python dicts behave. -/
def dictInsert {α : Type} (l : List (String × α)) (k : String) (v : α) :
    List (String × α) :=
  if l.any (fun p => decide (p.1 = k)) then
    l.map (fun p => if p.1 = k then (k, v) else p)
  else l ++ [(k, v)]

/-- Dict built from a list of pairs, later pairs overwriting earlier ones,
modelling the dict comprehensions of the source. -/
def buildDict {α : Type} (l : List (String × α)) : List (String × α) :=
  l.foldl (fun d p => dictInsert d p.1 p.2) []

/-- Insertion step of a stable ascending sort on strings. -/
def insertSorted (x : String) : List String → List String
  | [] => [x]
  | y :: ys => if y ≤ x then y :: insertSorted x ys else x :: y :: ys

/-- Ascending sort on strings, modelling the Python builtin sorted. -/
def sortStrings (l : List String) : List String :=
  l.foldr insertSorted []

/-- A numpy ndarray of floats: a shape together with the flat data buffer in
C order, values modelled as exact rationals. -/
structure NDArray where
  shape : List ℕ
  data : List ℚ
deriving Repr, DecidableEq

/-- Flat C-order position of a multi-index, also accepting a prefix of a full
multi-index (used by partial indexing, which yields a subarray). -/
def flatIndex : List ℕ → List ℕ → ℕ
  | _, [] => 0
  | [], _ => 0
  | _ :: ss, i :: is => i * ss.prod + flatIndex ss is

/-- Value of the array at a full multi-index. -/
def NDArray.get (a : NDArray) (idx : List ℕ) : ℚ :=
  a.data.getD (flatIndex a.shape idx) 0

/-- All multi-indices of a shape, in C order. -/
def allIdx : List ℕ → List (List ℕ)
  | [] => [[]]
  | s :: ss => (List.range s).flatMap (fun i => (allIdx ss).map (fun idx => i :: idx))

/-- Sum of the array along one axis, modelling np.sum with an axis argument:
the axis is dropped from the shape and entries along it are added. -/
def NDArray.sumAxis (a : NDArray) (k : ℕ) : NDArray :=
  ⟨a.shape.eraseIdx k,
   (allIdx (a.shape.eraseIdx k)).map (fun idx =>
     ((List.range (a.shape.getD k 0)).map
       (fun t => a.get (List.insertIdx k t idx))).sum)⟩

/-- Reshape, modelling ndarray.reshape: the flat buffer is unchanged and only
reinterpreted under the new shape. The embedded call sites always pass a
size-preserving shape, so the numpy size check is not modelled. -/
def NDArray.reshape (a : NDArray) (newShape : List ℕ) : NDArray :=
  ⟨newShape, a.data⟩

/-- Broadcast projection of a multi-index onto an array whose shape may hold
singleton axes: a singleton axis always reads position zero. -/
def bproj (s idx : List ℕ) : List ℕ :=
  List.zipWith (fun d i => if d = 1 then 0 else i) s idx

/-- Elementwise product of two arrays of equal rank under numpy broadcasting
of singleton axes. -/
def bcastMul (x y : NDArray) : NDArray :=
  let ns := List.zipWith max x.shape y.shape
  ⟨ns, (allIdx ns).map (fun idx =>
     x.get (bproj x.shape idx) * y.get (bproj y.shape idx))⟩

/-- Subarray at a prefix multi-index, modelling numpy partial indexing such as
cpd[(i, j)] on a three-dimensional array. -/
def NDArray.slice (a : NDArray) (pre : List ℕ) : NDArray :=
  ⟨a.shape.drop pre.length,
   (a.data.drop (flatIndex a.shape pre)).take ((a.shape.drop pre.length).prod)⟩

/-- Total sum of the array, modelling np.sum without an axis argument. -/
def NDArray.total (a : NDArray) : ℚ :=
  a.data.sum

/-- Closeness test of np.isclose with the numpy defaults rtol 1e-5 and
atol 1e-8. -/
def npIsClose (x y : ℚ) : Bool :=
  decide (|x - y| ≤ 1 / 100000000 + (1 / 100000) * |y|)

/-- Tabular factor of core/factor.py: an ordered scope of variable names and
an ndarray of pseudo-probabilities, one axis per scope variable. -/
structure TFactor where
  scope : List String
  values : NDArray
deriving Repr, DecidableEq

/-- Constructor checks of Factor.__init__. The type checks on the arguments
are enforced by the embedding types; the remaining checks are that the scope
is duplicate-free and that the array rank equals the scope length. -/
def factorInit (scope : List String) (values : NDArray) : Except PyErr TFactor :=
  if ¬ scope.Nodup then .error (.valueError "The scope must be unique")
  else if ¬ values.shape.length = scope.length then
    .error (.valueError "The values array dimensions disagree with the scope")
  else .ok ⟨scope, values⟩

/-- Factor.evaluate: requires the assignment keys to be exactly the scope as
a set, checks every assigned value against the cardinality of its axis in
assignment order, then indexes the array by the scope order. -/
def TFactor.evaluate (f : TFactor) (a : List (String × ℤ)) : Except PyErr ℚ :=
  if sameKeySet f.scope (keysOf a) = true then
    match a.find? (fun p =>
        decide (p.2 < 0) ||
        decide ((f.values.shape.getD (f.scope.indexOf p.1) 0 : ℤ) ≤ p.2)) with
    | some p => .error (.valueRangeError p.1 p.2)
    | none => .ok (f.values.get (f.scope.map (fun v => ((a.lookup v).getD 0).toNat)))
  else .error (.valueError "The assignments are invalid")

/-- Factor.multiply: the combined scope appends the unseen variables of the
other scope, both value arrays are reshaped (not transposed) to the combined
rank with singleton axes for absent variables, and the reshaped arrays are
broadcast-multiplied. The result goes through the Factor constructor again,
as in the source. -/
def TFactor.multiply (f other : TFactor) : Except PyErr TFactor :=
  let newScope := f.scope ++ other.scope.filter (fun v => decide (¬ v ∈ f.scope))
  let fShape := newScope.map (fun v =>
    if v ∈ f.scope then f.values.shape.getD (f.scope.indexOf v) 1 else 1)
  let oShape := newScope.map (fun v =>
    if v ∈ other.scope then other.values.shape.getD (other.scope.indexOf v) 1 else 1)
  factorInit newScope (bcastMul (f.values.reshape fShape) (other.values.reshape oShape))

/-- Factor.sum_out: rejects a variable outside the scope, rejects a scope of
length one, then sums the array along the axis of the variable and drops the
variable from the scope, preserving the order of the others. -/
def TFactor.sum_out (f : TFactor) (v : String) : Except PyErr TFactor :=
  if ¬ v ∈ f.scope then
    .error (.valueError "The variable to sum out is not in the factor")
  else if f.scope.length = 1 then
    .error (.valueError "The variable is the only variable in the factor")
  else
    factorInit (f.scope.filter (fun w => decide (w ≠ v)))
      (f.values.sumAxis (f.scope.indexOf v))

/-- Factor.normalise: divides every entry by the total sum over all axes and
raises ValueError when that total is zero. The source assigns the new values
to self.values and returns None; the embedding returns the updated receiver,
so the result is the post-state of the factor the method was invoked on. -/
def TFactor.normalise (f : TFactor) : Except PyErr TFactor :=
  if f.values.total = 0 then .error (.valueError "The sum of the values is zero")
  else .ok ⟨f.scope, ⟨f.values.shape, f.values.data.map (fun q => q / f.values.total)⟩⟩

/-- Methods defined by the Factor class in core/factor.py. -/
def factorMethodNames : List String :=
  ["__init__", "evaluate", "multiply", "__mul__", "sum_out", "normalise"]

/-- Parameters of the signature of Factor.normalise in core/factor.py. -/
def factorNormaliseParamNames : List String :=
  ["self"]

/-- Formalisation of the claim wording for normalisation (claim C4): divide
by the sum over the last n axes, broadcast along those axes, and replace a
zero sum by one so that a zero row stays zero. This definition follows the
claim, not the source, and is compared against the source behaviour. -/
def normaliseSpecClaim (n : ℕ) (a : NDArray) : NDArray :=
  let lead := a.shape.length - n
  ⟨a.shape, (allIdx a.shape).map (fun idx =>
     let s := ((allIdx (a.shape.drop lead)).map
       (fun tl => a.get (idx.take lead ++ tl))).sum
     a.get idx / (if s = 0 then 1 else s))⟩

/-- Discrete node of core/node.py: a variable name, references to the parent
node objects, and a conditional probability table whose last axis belongs to
the variable itself. -/
inductive DNode where
  | mk (variable_name : String) (parent_nodes : List DNode) (cpd : NDArray)

/-- Name of the variable owned by the node. -/
def DNode.variable_name : DNode → String
  | .mk n _ _ => n

/-- Parent node objects of the node. -/
def DNode.parent_nodes : DNode → List DNode
  | .mk _ ps _ => ps

/-- Conditional probability table of the node. -/
def DNode.cpd : DNode → NDArray
  | .mk _ _ c => c

mutual

/-- Structural equality of nodes, the embedding proxy for the Python object
comparisons made by the set and membership operations of network.py. -/
def DNode.beq : DNode → DNode → Bool
  | .mk n1 ps1 c1, .mk n2 ps2 c2 => n1 == n2 && c1 == c2 && DNode.beqList ps1 ps2

/-- Pointwise structural equality of node lists. -/
def DNode.beqList : List DNode → List DNode → Bool
  | [], [] => true
  | a :: as, b :: bs => DNode.beq a b && DNode.beqList as bs
  | _, _ => false

end

/-- Node.get_cardinality: the extent of the last axis of the CPT. -/
def DNode.get_cardinality (n : DNode) : ℕ :=
  n.cpd.shape.getLastD 0

/-- Constructor checks of Node.__init__ in core/node.py: name length between
one and twenty, CPT shape equal to the parent cardinalities followed by the
own cardinality (rank one when there are no parents), and each last-axis row
summing to one within np.isclose tolerance. The argument type checks are
enforced by the embedding types. -/
def nodeInit (name : String) (parents : List DNode) (cpd : NDArray) :
    Except PyErr DNode :=
  if name.length = 0 ∨ name.length > 20 then
    .error (.valueError "The variable name must be a reasonably short string")
  else if 0 < parents.length ∧
      ¬ cpd.shape = parents.map DNode.get_cardinality ++ [cpd.shape.getLastD 0] then
    .error (.valueError "The shape of the CPD disagrees with the expected shape")
  else if parents.length = 0 ∧ ¬ cpd.shape.length = 1 then
    .error (.valueError "The dimension of the CPD should be 1 if there are no parent nodes")
  else if 0 < parents.length ∧
      ¬ (cpd.sumAxis (cpd.shape.length - 1)).data.all (fun s => npIsClose s 1) then
    .error (.valueError "The CPD does not represent a valid probability distribution")
  else if parents.length = 0 ∧ ¬ npIsClose cpd.total 1 then
    .error (.valueError "The CPD does not represent a valid probability distribution")
  else .ok (.mk name parents cpd)

/-- Node.get_conditional_distribution: requires the assignment keys to be
exactly the parent names as a set, range-checks every assigned state against
the cardinality of its parent in assignment order, then indexes the CPT by
the parent order, yielding the one-dimensional conditional distribution. -/
def DNode.get_conditional_distribution (n : DNode) (assign : List (String × ℤ)) :
    Except PyErr NDArray :=
  if sameKeySet (keysOf assign) (n.parent_nodes.map DNode.variable_name) = true then
    match assign.find? (fun p =>
        decide (p.2 < 0) ||
        decide ((((n.parent_nodes.find? (fun q => q.variable_name == p.1)).elim 0
          DNode.get_cardinality : ℕ) : ℤ) ≤ p.2)) with
    | some p => .error (.valueRangeError p.1 p.2)
    | none =>
        .ok (n.cpd.slice (n.parent_nodes.map
          (fun q => ((assign.lookup q.variable_name).getD 0).toNat)))
  else .error (.valueError "Not all parent nodes are provided")

/-- Node.compute_conditional_probability: range-checks the own state, then
indexes the conditional distribution of the given parent assignment. -/
def DNode.compute_conditional_probability (n : DNode) (v : ℤ)
    (parentAssign : List (String × ℤ)) : Except PyErr ℚ :=
  if v < 0 ∨ (n.get_cardinality : ℤ) ≤ v then
    .error (.valueRangeError n.variable_name v)
  else
    match n.get_conditional_distribution parentAssign with
    | .error err => .error err
    | .ok dist => .ok (dist.get [v.toNat])

/-- Methods defined by the Node class in core/node.py. A method named
to_factor is absent, which claim C1 is about. -/
def nodeMethodNames : List String :=
  ["__init__", "__repr__", "get_cardinality", "get_parent_nodes",
   "get_conditional_distribution", "compute_conditional_probability"]

/-- Attribute access node.to_factor() as performed by Network.get_factors:
the attribute is looked up among the methods of the Node class and the call
raises AttributeError when it is absent. The success branch can never be
taken because to_factor is not among the methods of the class. -/
def nodeCallToFactor (_n : DNode) : Except PyErr TFactor :=
  if "to_factor" ∈ nodeMethodNames then .ok ⟨[], ⟨[], []⟩⟩
  else .error (.attributeError "Node" "to_factor")

/-- Discrete network of core/network.py: the dict from variable names to
nodes built in Network.__init__. -/
structure DNetwork where
  nodes : List (String × DNode)

/-- Check that all nodes in the list are pairwise distinct, the embedding of
len(set(nodes)) == len(nodes). -/
def pairwiseDistinctNodes : List DNode → Bool
  | [] => true
  | n :: ns => ¬ ns.any (fun m => DNode.beq n m) && pairwiseDistinctNodes ns

/-- Constructor checks of Network.__init__: nodes pairwise distinct and every
parent of every node present in the list. The acyclicity check is a TODO
comment in the source and is absent, which claim C3 is about. -/
def networkInit (nodes : List DNode) : Except PyErr DNetwork :=
  if ¬ pairwiseDistinctNodes nodes = true then
    .error (.valueError "The nodes must be unique")
  else if nodes.any (fun n =>
      n.parent_nodes.any (fun p => ¬ nodes.any (fun m => DNode.beq p m))) then
    .error (.valueError "The network is not closed")
  else .ok ⟨buildDict (nodes.map (fun n => (n.variable_name, n)))⟩

/-- Network.get_variable_names, as the ordered key list of the node dict. -/
def DNetwork.get_variable_names (net : DNetwork) : List String :=
  keysOf net.nodes

/-- Network.get_factors: calls node.to_factor() on every node of the dict, so
the first node already raises AttributeError. -/
def DNetwork.get_factors (net : DNetwork) : Except PyErr (List TFactor) :=
  net.nodes.mapM (fun p => nodeCallToFactor p.2)

/-- Parent assignment projected out of a full evidence dict for one node, as
built inside Network.evaluate_joint_probability. -/
def parentAssignOf (node : DNode) (e : List (String × ℤ)) : List (String × ℤ) :=
  node.parent_nodes.map (fun pn => (pn.variable_name, (e.lookup pn.variable_name).getD 0))

/-- Product loop of Network.evaluate_joint_probability over the node dict. -/
def jointLoop (e : List (String × ℤ)) : List (String × DNode) → ℚ → Except PyErr ℚ
  | [], acc => .ok acc
  | (name, node) :: rest, acc =>
    match node.compute_conditional_probability ((e.lookup name).getD 0)
        (parentAssignOf node e) with
    | .error err => .error err
    | .ok c => jointLoop e rest (acc * c)

/-- Network.evaluate_joint_probability: requires the evidence keys to be
exactly the variable names as a set, range-checks every observation, then
multiplies the node-local conditional probabilities in dict order. -/
def DNetwork.evaluate_joint_probability (net : DNetwork) (e : List (String × ℤ)) :
    Except PyErr ℚ :=
  if sameKeySet (keysOf e) (keysOf net.nodes) = true then
    match e.find? (fun p =>
        decide (p.2 < 0) ||
        decide ((((net.nodes.lookup p.1).elim 0 DNode.get_cardinality : ℕ) : ℤ) ≤ p.2)) with
    | some _ => .error (.valueError "The evidence observations are invalid")
    | none => jointLoop e net.nodes 1
  else .error (.valueError "The evidence variables must be complete")

/-- Left reduce of factor multiplication, modelling functools.reduce over a
nonempty list; the empty case mirrors the TypeError of reduce. -/
def mulLoop : TFactor → List TFactor → Except PyErr TFactor
  | acc, [] => .ok acc
  | acc, f :: fs =>
    match acc.multiply f with
    | .error err => .error err
    | .ok g => mulLoop g fs

/-- Reduce a list of factors by multiplication. -/
def reduceMul : List TFactor → Except PyErr TFactor
  | [] => .error (.typeError "reduce of empty iterable with no initial value")
  | f :: fs => mulLoop f fs

/-- The sum_product_eliminate function of core/algorithms.py: requires the
variable to occur in some factor, multiplies the relevant factors, sums the
variable out, and returns the irrelevant factors together with the reduced
one. The Python set of factors is modelled as a list in iteration order. -/
def sumProductEliminate (factors : List TFactor) (v : String) :
    Except PyErr (List TFactor) :=
  if ¬ ∃ f ∈ factors, v ∈ f.scope then
    .error (.valueError "The variable is not in any of the factors")
  else
    match reduceMul (factors.filter (fun f => decide (v ∈ f.scope))) with
    | .error err => .error err
    | .ok phi =>
      match phi.sum_out v with
      | .error err => .error err
      | .ok tau => .ok (factors.filter (fun f => decide (¬ v ∈ f.scope)) ++ [tau])

/-- Elimination loop of Network.query over the elimination ordering. -/
def elimLoop : List String → List TFactor → Except PyErr (List TFactor)
  | [], fs => .ok fs
  | v :: vs, fs =>
    match sumProductEliminate fs v with
    | .error err => .error err
    | .ok fs2 => elimLoop vs fs2

/-- Attribute access for a method of the Factor class, as used by the tail of
Network.query for the calls reduced_factor.reorder(...) and
reduced_factor.normalise(n_dimensions=...). -/
def factorGetAttr (attr : String) : Except PyErr Unit :=
  if attr ∈ factorMethodNames then .ok () else .error (.attributeError "Factor" attr)

/-- Network.query: after its input validation it derives the elimination
ordering, fetches the factors through get_factors (which raises because Node
has no to_factor method), runs the elimination loop, reduces, asserts the
residual scope, and then would call reorder, a method Factor does not define,
and normalise with an n_dimensions keyword that normalise does not accept.
The final indexing of the source is unreachable behind those failures and is
not modelled further. -/
def DNetwork.query (net : DNetwork) (Y e : List (String × ℤ)) : Except PyErr ℚ :=
  if Y.length = 0 then
    .error (.valueError "There must be at least one query variable")
  else if ∃ k ∈ keysOf Y, k ∈ keysOf e then
    .error (.valueError "The query and evidence variables must be disjoint")
  else if ¬ ∀ k ∈ keysOf Y ++ keysOf e, k ∈ keysOf net.nodes then
    .error (.valueError "The query and evidence variables must be a subset of the network")
  else
    let ordering := net.get_variable_names.filter
      (fun v => decide (¬ v ∈ keysOf Y ∧ ¬ v ∈ keysOf e))
    match net.get_factors with
    | .error err => .error err
    | .ok factors0 =>
      match elimLoop ordering factors0 with
      | .error err => .error err
      | .ok factors =>
        match reduceMul factors with
        | .error err => .error err
        | .ok reduced =>
          if ¬ sameKeySet reduced.scope (keysOf Y ++ keysOf e) = true then
            .error .assertionError
          else
            match factorGetAttr "reorder" with
            | .error err => .error err
            | .ok _ =>
              .error (.typeError "normalise got an unexpected keyword argument n_dimensions")

/-- Node variant tag of cassandra/network.py. -/
inductive NodeType where
  | ROOT
  | CHILD
deriving Repr, DecidableEq

/-- Shape of the distribution_parameters argument of the continuous Node
constructor: a keyword dict for a root marginal density, or the nested locs
and scale values of the conditional Gaussian of a child. -/
inductive DistParams where
  | rootKw (kw : List (String × ℚ))
  | childParams (intercept slope scale : ℚ)

/-- Stand-in for the _marginal_pdf attribute on a child node, where the
source never sets it; no embedded operation reads it on a child because
every consumer first branches on the node type. -/
def absentMarginal : ℚ → List (String × ℚ) → ℚ :=
  fun _ _ => 0

/-- Stand-in for the _equation attribute on a root node, where the source
never sets it; no embedded operation reads it on a root. -/
def absentEquation : List (String × ℚ) → List (String × ℚ) → ℚ :=
  fun _ _ => 0

/-- Continuous node of cassandra/network.py. The user marginal density is the
callable stored as _marginal_pdf and is invoked with the variable value and
the distribution_parameters dict as keywords; the structural equation is the
callable stored as _equation, invoked with the parent values and the system
parameter values. -/
structure CNode where
  variable_name : String
  domain : ℚ × ℚ
  parent_variable_names : List String
  system_parameter_names : List String
  type : NodeType
  marginalFun : ℚ → List (String × ℚ) → ℚ
  dparamsKw : List (String × ℚ)
  eqFun : List (String × ℚ) → List (String × ℚ) → ℚ
  intercept : ℚ
  slope : ℚ
  scale : ℚ

/-- Keyword dict carried by a root distribution_parameters value. The child
shape is not meaningful for a root and is not exercised by any theorem. -/
def rootKwOf : DistParams → List (String × ℚ)
  | .rootKw kw => kw
  | .childParams _ _ _ => []

/-- Conditional Gaussian parameters carried by a child distribution_parameters
value; a missing value yields the source defaults of intercept zero, slope
one and scale one. -/
def childParamsOf : Option DistParams → ℚ × ℚ × ℚ
  | none => (0, 1, 1)
  | some (.childParams i s c) => (i, s, c)
  | some (.rootKw _) => (0, 1, 1)

/-- Constructor of the continuous Node: with no parents the node is a ROOT and
must come with a marginal density and distribution parameters; otherwise it is
a CHILD and must come with an equation, the Gaussian parameters defaulting
when absent. -/
def cnodeInit (name : String) (domain : ℚ × ℚ) (parents : List String)
    (sysparams : List String)
    (equation : Option (List (String × ℚ) → List (String × ℚ) → ℚ))
    (marginal : Option (ℚ → List (String × ℚ) → ℚ))
    (dparams : Option DistParams) : Except PyErr CNode :=
  if parents.length = 0 then
    match marginal, dparams with
    | some mu, some dp =>
        .ok ⟨name, domain, parents, sysparams, .ROOT, mu, rootKwOf dp,
             absentEquation, 0, 1, 1⟩
    | _, _ =>
        .error (.valueError "Root nodes must have a marginal probability distribution and distribution parameters.")
  else
    match equation with
    | none => .error (.valueError "Child nodes must have an equation.")
    | some f =>
        let p := childParamsOf dparams
        .ok ⟨name, domain, parents, sysparams, .CHILD, absentMarginal, [],
             f, p.1, p.2.1, p.2.2⟩

/-- Node.marginal_pdf of cassandra/network.py: rejects a child node, returns
zero outside the domain interval, and otherwise calls the stored density with
the variable value and the distribution_parameters keywords only. The
system_parameter_values argument is accepted but never forwarded to the
density, so the result never depends on it. -/
def CNode.marginal_pdf (n : CNode) (x : ℚ) (θ : List (String × ℚ)) :
    Except PyErr ℚ :=
  if n.type = .CHILD then
    .error (.valueError "Child nodes do not have a predefined marginal probability distribution.")
  else if x < n.domain.1 ∨ x > n.domain.2 then .ok 0
  else .ok (n.marginalFun x n.dparamsKw)

/-- Node.equation: applies the stored structural equation. The source reads
self._equation, an attribute only child construction sets, so on a root the
access raises AttributeError. -/
def CNode.equation (n : CNode) (parentVals θ : List (String × ℚ)) :
    Except PyErr ℚ :=
  if n.type = .ROOT then .error (.attributeError "Node" "_equation")
  else .ok (n.eqFun parentVals θ)

/-- Node.conditional_pdf: rejects a root node, returns zero outside the
domain, and otherwise evaluates the Gaussian density at the equation value
scaled by slope and shifted by intercept, with the stored scale. The Gaussian
density primitive of scipy.stats.norm.pdf is the parameter normPdf. -/
def CNode.conditional_pdf (normPdf : ℚ → ℚ → ℚ → ℚ) (n : CNode) (x : ℚ)
    (parentVals θ : List (String × ℚ)) : Except PyErr ℚ :=
  if n.type = .ROOT then
    .error (.valueError "Root nodes do not have a conditional probability distribution.")
  else if x < n.domain.1 ∨ x > n.domain.2 then .ok 0
  else
    match n.equation parentVals θ with
    | .error err => .error err
    | .ok t => .ok (normPdf x (n.intercept + n.slope * t) n.scale)

/-- Functional factor of cassandra/network.py: a scope and the stored pdf
closure. The closure raises the exceptions of whatever it wraps, hence the
Except result. -/
structure CFactor where
  scope : List String
  pdfImpl : List (String × ℚ) → List (String × ℚ) → Except PyErr ℚ

/-- Factor.__init__ of cassandra/network.py: the scope is the sorted list of
the node name and its parent names, and the stored closure dispatches on the
node type, projecting the parent values out of the assignment dict for a
child. A missing dict entry raises KeyError exactly where the source indexing
would. -/
def cfactorInit (normPdf : ℚ → ℚ → ℚ → ℚ) (node : CNode) : CFactor :=
  ⟨sortStrings (node.variable_name :: node.parent_variable_names),
   if node.type = .ROOT then
     fun vals θ =>
       match lookupE vals node.variable_name with
       | .error err => .error err
       | .ok x => node.marginal_pdf x θ
   else
     fun vals θ =>
       match lookupE vals node.variable_name with
       | .error err => .error err
       | .ok x =>
         match node.parent_variable_names.mapM (fun p =>
             match lookupE vals p with
             | .error err => (Except.error err : Except PyErr (String × ℚ))
             | .ok v => Except.ok (p, v)) with
         | .error err => .error err
         | .ok parentVals => CNode.conditional_pdf normPdf node x parentVals θ⟩

/-- Factor.pdf: requires the scope to be a subset of the assignment keys and
then calls the stored closure; extra assignment keys are permitted. -/
def CFactor.pdf (f : CFactor) (vals θ : List (String × ℚ)) : Except PyErr ℚ :=
  if ∀ v ∈ f.scope, v ∈ keysOf vals then f.pdfImpl vals θ
  else .error (.keyError "The values of all variables in the scope must be provided.")

/-- Factor.__mul__: the combined scope is the sorted union of the two scopes,
and the combined closure projects the assignment dict onto each scope and
multiplies the two pdf results. -/
def CFactor.mul (f other : CFactor) : CFactor :=
  ⟨sortStrings ((f.scope ++ other.scope).dedup),
   fun vals θ =>
     match f.pdf (vals.filter (fun p => decide (p.1 ∈ f.scope))) θ with
     | .error err => .error err
     | .ok v1 =>
       match other.pdf (vals.filter (fun p => decide (p.1 ∈ other.scope))) θ with
       | .error err => .error err
       | .ok v2 => .ok (v1 * v2)⟩

/-- Continuous Bayesian network of cassandra/network.py: the node dict, the
edge set and the union of the system parameter names. -/
structure CBNetwork where
  nodes : List (String × CNode)
  edges : List (String × String)
  system_parameter_names : List String

/-- Addition to the edge set, modelling set.add. -/
def setAdd (s : List (String × String)) (e : String × String) :
    List (String × String) :=
  if e ∈ s then s else s ++ [e]

/-- Edge and parameter accumulation of BayesianNetwork.__init__ over one node.
The source compares node.type to the string root, which is never equal to a
NodeType value, so every node, roots included, falls through to the parent
loop; a root contributes nothing because its parent list is empty. -/
def cbEdgeStep (nodeDict : List (String × CNode))
    (acc : List String × List (String × String)) (p : String × CNode) :
    Except PyErr (List String × List (String × String)) :=
  let acc1 := (acc.1 ++ p.2.system_parameter_names, acc.2)
  p.2.parent_variable_names.foldlM
    (fun a2 parent =>
      if nodeDict.any (fun q => decide (q.1 = parent)) then
        Except.ok (a2.1, setAdd a2.2 (parent, p.2.variable_name))
      else
        Except.error (PyErr.valueErrorFor parent "is not in the Bayesian network."))
    acc1

/-- BayesianNetwork.__init__: builds the node dict, walks the nodes collecting
system parameter names and parent edges, and rejects a parent name absent from
the dict. No acyclicity check is performed anywhere, although the docstring
promises a ValueError for a non-DAG input, which claim C3 is about. -/
def cbNetworkInit (nodes : List CNode) : Except PyErr CBNetwork :=
  let nodeDict := buildDict (nodes.map (fun n => (n.variable_name, n)))
  match nodeDict.foldlM (cbEdgeStep nodeDict) ([], []) with
  | .error err => .error err
  | .ok acc => .ok ⟨nodeDict, acc.2, acc.1.dedup⟩

/-- BayesianNetwork._marginalise_factor: rejects an elimination variable
outside the factor scope, looks the variable up in the node dict for its
domain, and returns a new factor whose scope drops the variable and whose
closure integrates the wrapped pdf over the domain interval. The adaptive
quadrature primitive of scipy.integrate.quad is the parameter quad. No check
rejects a single-variable scope, so the result scope can be empty. -/
def CBNetwork.marginaliseFactor
    (quad : (ℚ → Except PyErr ℚ) → ℚ → ℚ → Except PyErr ℚ)
    (net : CBNetwork) (factor : CFactor) (v : String) : Except PyErr CFactor :=
  if ¬ v ∈ factor.scope then
    .error (.valueErrorFor v "is not in the scope of the factor.")
  else
    match lookupE net.nodes v with
    | .error err => .error err
    | .ok node =>
      .ok ⟨factor.scope.filter (fun w => decide (w ≠ v)),
           fun vals θ =>
             quad (fun t => factor.pdf (dictInsert vals v t) θ)
               node.domain.1 node.domain.2⟩

/-- Directed reachability step over an edge list: add the successors of the
current vertex set. -/
def reachStep (edges : List (String × String)) (s : List String) : List String :=
  (s ++ (edges.filter (fun e => decide (e.1 ∈ s))).map Prod.snd).dedup

/-- Iterated reachability. -/
def reachN (edges : List (String × String)) : ℕ → List String → List String
  | 0, s => s
  | k + 1, s => reachN edges k (reachStep edges s)

/-- Existence of a directed cycle in an edge list: some edge closes back from
its target to its source. -/
def existsCycle (edges : List (String × String)) : Bool :=
  edges.any (fun e => decide (e.1 ∈ reachN edges (edges.length + 1) [e.2]))

/-- Formalisation of the claim wording for the root marginal density (claim
C2): the user density receives the distribution parameters and the system
parameters together. This definition follows the claim, not the source, and
is compared against the source behaviour of CNode.marginal_pdf. -/
def marginalPdfSpecClaim (n : CNode) (x : ℚ) (θ : List (String × ℚ)) : ℚ :=
  if x < n.domain.1 ∨ x > n.domain.2 then 0
  else n.marginalFun x (n.dparamsKw ++ θ)

set_option linter.unreachableTactic false

set_option linter.unusedTactic false

set_option linter.unnecessarySeqFocus false

/-- Root marginal density used for claim C2: it reads the keyword boost, so
its value depends on the system parameters exactly when they are forwarded
to it. -/
def muC2 : ℚ → List (String × ℚ) → ℚ :=
  fun _ kw => (kw.lookup "boost").getD 0

/-- Root node produced by the continuous Node constructor for claim C2. -/
def nodeC2 : CNode :=
  ⟨"A", (0, 1), [], [], .ROOT, muC2, [], absentEquation, 0, 1, 1⟩

/-- System parameter values used against claim C2. -/
def thetaC2 : List (String × ℚ) :=
  [("boost", 7)]

/-- Structural equation returning zero, used by the cyclic input of C3. -/
def eqZeroC3 : List (String × ℚ) → List (String × ℚ) → ℚ :=
  fun _ _ => 0

/-- Child node A with parent B, half of the two-node cycle of claim C3. -/
def cnAcycA : CNode :=
  ⟨"A", (0, 1), ["B"], [], .CHILD, absentMarginal, [], eqZeroC3, 0, 1, 1⟩

/-- Child node B with parent A, the other half of the cycle of claim C3. -/
def cnAcycB : CNode :=
  ⟨"B", (0, 1), ["A"], [], .CHILD, absentMarginal, [], eqZeroC3, 0, 1, 1⟩

/-- Tabular factor whose rows have different sums, separating the two
normalisation readings of claim C4. -/
def tC4 : TFactor :=
  ⟨["A", "B"], ⟨[2, 2], [1, 1, 1, 3]⟩⟩

/-- Tabular factor with an all-zero array, for the zero-sum branch of C4. -/
def tC4zero : TFactor :=
  ⟨["A"], ⟨[2], [0, 0]⟩⟩

/-- Quadrature stand-in returning zero, used where the integral value is
irrelevant to the stated property. -/
def quadZero : (ℚ → Except PyErr ℚ) → ℚ → ℚ → Except PyErr ℚ :=
  fun _ _ _ => .ok 0

/-- Root node named x of the one-node continuous network below. -/
def nodeC5 : CNode :=
  ⟨"x", (0, 1), [], [], .ROOT, (fun _ _ => 1), [], absentEquation, 0, 1, 1⟩

/-- One-node continuous network holding the node x. -/
def netC5 : CBNetwork :=
  ⟨[("x", nodeC5)], [], []⟩

/-- Functional factor whose scope is the single variable x. -/
def gC5 : CFactor :=
  ⟨["x"], fun _ _ => .ok 1⟩

/-- Functional factor over the two variables x and y. -/
def gC7 : CFactor :=
  ⟨["x", "y"], fun _ _ => .ok 1⟩

/-- Tabular factor over A and B with distinct entries, used by C6 and C7. -/
def tC6 : TFactor :=
  ⟨["A", "B"], ⟨[2, 2], [1/10, 2/10, 3/10, 4/10]⟩⟩

/-- Tabular factor whose scope is a single variable. -/
def tSingle : TFactor :=
  ⟨["A"], ⟨[2], [1, 1]⟩⟩

/-- Gaussian density stand-in returning zero, used where the density value is
irrelevant to the stated property. -/
def normPdfZero : ℚ → ℚ → ℚ → ℚ :=
  fun _ _ _ => 0

/-- First tabular operand of the C8 failing input, scope order A then B. -/
def f1C8 : TFactor :=
  ⟨["A", "B"], ⟨[2, 2], [1, 2, 3, 4]⟩⟩

/-- Second tabular operand of the C8 failing input, scope order B then A. -/
def f2C8 : TFactor :=
  ⟨["B", "A"], ⟨[2, 2], [1, 1, 1, 5]⟩⟩

/-- Product computed by the source for f1C8 times f2C8. -/
def g12C8 : TFactor :=
  ⟨["A", "B"], ⟨[2, 2], [1, 2, 3, 20]⟩⟩

/-- Product computed by the source for f2C8 times f1C8. -/
def g21C8 : TFactor :=
  ⟨["B", "A"], ⟨[2, 2], [1, 2, 3, 20]⟩⟩

/-- Assignment at which the two product orders of C8 disagree. -/
def aC8 : List (String × ℤ) :=
  [("A", 0), ("B", 1)]

/-- CPT with a negative entry whose total is exactly one, for claim C9. -/
def cpdC9 : NDArray :=
  ⟨[2], [2, -1]⟩

/-- Parentless node carrying the C9 CPT. -/
def nodeC9 : DNode :=
  .mk "A" [] cpdC9

/-- One-node discrete network holding nodeC9, shared by C1 and C9. -/
def netOneNode : DNetwork :=
  ⟨[("A", nodeC9)]⟩

/-- Uniform tabular factor whose normalisation changes every entry. -/
def f0C10 : TFactor :=
  ⟨["A", "B"], ⟨[2, 2], [1, 1, 1, 1]⟩⟩

/-- Post-state of f0C10 after the in-place normalisation of the source. -/
def f1C10 : TFactor :=
  ⟨["A", "B"], ⟨[2, 2], [1/4, 1/4, 1/4, 1/4]⟩⟩

/-- Membership is preserved by the insertion step of the string sort. -/
theorem mem_insertSorted {b a : String} {l : List String} :
    b ∈ insertSorted a l ↔ b = a ∨ b ∈ l := by
  induction l with
  | nil => simp [insertSorted]
  | cons y ys ih =>
    simp only [insertSorted]
    by_cases h : y ≤ a
    · rw [if_pos h]
      simp only [List.mem_cons, ih]
      tauto
    · rw [if_neg h]
      simp [List.mem_cons]

/-- Membership is preserved by the string sort. -/
theorem mem_sortStrings {b : String} {l : List String} :
    b ∈ sortStrings l ↔ b ∈ l := by
  induction l with
  | nil => simp [sortStrings]
  | cons x xs ih =>
    simp only [sortStrings, List.foldr_cons] at *
    rw [mem_insertSorted, ih, List.mem_cons]

/-- A key listed among the keys of an association list has a lookup value. -/
theorem lookup_of_mem_keys {α : Type} {l : List (String × α)} {k : String}
    (h : k ∈ keysOf l) : ∃ v, l.lookup k = some v := by
  induction l with
  | nil => simp [keysOf] at h
  | cons p ps ih =>
    obtain ⟨k1, v1⟩ := p
    by_cases hk : k1 = k
    · exact ⟨v1, by simp [List.lookup, hk]⟩
    · simp only [keysOf, List.map_cons, List.mem_cons] at h
      rcases h with h | h
      · exact absurd h.symm hk
      · obtain ⟨v, hv⟩ := ih h
        have hbeq : (k == k1) = false :=
          beq_eq_false_iff_ne.mpr (fun h2 => hk h2.symm)
        exact ⟨v, by simp [List.lookup, hbeq, hv]⟩

/-- Raising dict indexing succeeds on a present key. -/
theorem lookupE_ok {α : Type} {l : List (String × α)} {k : String}
    (h : k ∈ keysOf l) : ∃ v, lookupE l k = .ok v := by
  obtain ⟨v, hv⟩ := lookup_of_mem_keys h
  exact ⟨v, by simp [lookupE, hv]⟩

/-- On a duplicate-free list, filtering one value away is erasure. -/
theorem filter_ne_eq_erase (l : List String) (v : String) (h : l.Nodup) :
    l.filter (fun w => decide (w ≠ v)) = l.erase v := by
  have h2 := h.erase_eq_filter v
  simpa using h2.symm

/-- A monadic map over the Except monad succeeds when every element does. -/
theorem mapM_ok {α β : Type} (f : α → Except PyErr β) :
    ∀ (l : List α), (∀ x ∈ l, ∃ y, f x = .ok y) → ∃ ys, l.mapM f = .ok ys := by
  intro l
  induction l with
  | nil => exact fun _ => ⟨[], rfl⟩
  | cons x xs ih =>
    intro h
    obtain ⟨y, hy⟩ := h x (by simp)
    obtain ⟨ys, hys⟩ := ih (fun z hz => h z (by simp [hz]))
    refine ⟨y :: ys, ?_⟩
    rw [List.mapM_cons, hy, hys]
    rfl

/-- C1: for every Network of discrete nodes, the public query path is
unusable. Network.get_factors raises AttributeError on every nonempty
network because it calls node.to_factor() and the Node class defines no
to_factor method; consequently Network.query raises the same AttributeError
for every query and evidence input that passes its validation checks; and
the reorder method and the n_dimensions parameter of normalise that query
relies upon further down are likewise absent from the Factor class. -/
theorem C1_public_query_path_raises_attribute_error :
    (∀ net : DNetwork, net.nodes ≠ [] →
        DNetwork.get_factors net = .error (.attributeError "Node" "to_factor"))
  ∧ (∀ (net : DNetwork) (Y e : List (String × ℤ)),
        Y.length ≠ 0 →
        ¬ (∃ k ∈ keysOf Y, k ∈ keysOf e) →
        (∀ k ∈ keysOf Y ++ keysOf e, k ∈ keysOf net.nodes) →
        DNetwork.query net Y e = .error (.attributeError "Node" "to_factor"))
  ∧ ¬ "to_factor" ∈ nodeMethodNames
  ∧ ¬ "reorder" ∈ factorMethodNames
  ∧ ¬ "n_dimensions" ∈ factorNormaliseParamNames := by
  have hgf : ∀ net : DNetwork, net.nodes ≠ [] →
      DNetwork.get_factors net = .error (.attributeError "Node" "to_factor") := by
    intro net h
    rw [DNetwork.get_factors]
    match hn : net.nodes with
    | [] => exact absurd hn h
    | p :: rest =>
      rw [List.mapM_cons]
      have hcall : nodeCallToFactor p.2 =
          .error (.attributeError "Node" "to_factor") := by
        rw [nodeCallToFactor, if_neg (by decide)]
      rw [hcall]
      rfl
  refine ⟨hgf, ?_, by decide, by decide, by decide⟩
  intro net Y e h1 h2 h3
  have hnodes : net.nodes ≠ [] := by
    match hY : Y with
    | [] => exact absurd rfl h1
    | q :: qs =>
      have hk : q.1 ∈ keysOf net.nodes := by
        apply h3
        simp [keysOf]
      intro hnil
      rw [hnil] at hk
      simp [keysOf] at hk
  rw [DNetwork.query, if_neg h1, if_neg h2, if_neg (not_not_intro h3),
    hgf net hnodes]

/-- C1 witness: the one-node network netOneNode exhibits the AttributeError
on both get_factors and a validated query input. -/
theorem C1_public_query_path_witness :
    DNetwork.get_factors netOneNode = .error (.attributeError "Node" "to_factor")
  ∧ DNetwork.query netOneNode [("A", 0)] [] =
      .error (.attributeError "Node" "to_factor") :=
  ⟨C1_public_query_path_raises_attribute_error.1 netOneNode (List.cons_ne_nil _ _),
   C1_public_query_path_raises_attribute_error.2.1 netOneNode [("A", 0)] []
     (by decide) (by decide) (by decide)⟩

/-- C2 counterexample: marginal_pdf does not evaluate the user density with
the system parameters. On the root node nodeC2, whose density reads the
system parameter boost, the source returns 0 while the claimed behaviour,
formalised by marginalPdfSpecClaim, returns 7. -/
theorem C2_marginal_pdf_ignores_theta :
    cnodeInit "A" (0, 1) [] [] none (some muC2) (some (.rootKw [])) = .ok nodeC2
  ∧ CNode.marginal_pdf nodeC2 (1 / 2) thetaC2 = .ok 0
  ∧ marginalPdfSpecClaim nodeC2 (1 / 2) thetaC2 = 7
  ∧ (0 : ℚ) ≠ 7 := by
  refine ⟨rfl, ?_, ?_, by norm_num⟩
  · simp [CNode.marginal_pdf, nodeC2, muC2] <;> norm_num
  · simp [marginalPdfSpecClaim, nodeC2, muC2, thetaC2] <;> norm_num

/-- C2 amended: on a ROOT node, marginal_pdf returns 0 outside the domain and
otherwise evaluates the user density with only the distribution parameters of
the node; the system parameter argument is accepted but ignored, so the
result is the same for every value of it; on a CHILD node it fails with the
ValueError of the NotRoot case. -/
theorem C2_marginal_pdf_amended :
    (∀ (n : CNode) (x : ℚ) (θ θ2 : List (String × ℚ)),
        CNode.marginal_pdf n x θ = CNode.marginal_pdf n x θ2)
  ∧ (∀ (n : CNode) (x : ℚ) (θ : List (String × ℚ)), n.type = .ROOT →
        (x < n.domain.1 ∨ x > n.domain.2) → CNode.marginal_pdf n x θ = .ok 0)
  ∧ (∀ (n : CNode) (x : ℚ) (θ : List (String × ℚ)), n.type = .ROOT →
        n.domain.1 ≤ x → x ≤ n.domain.2 →
        CNode.marginal_pdf n x θ = .ok (n.marginalFun x n.dparamsKw))
  ∧ (∀ (n : CNode) (x : ℚ) (θ : List (String × ℚ)), n.type = .CHILD →
        CNode.marginal_pdf n x θ =
          .error (.valueError "Child nodes do not have a predefined marginal probability distribution.")) := by
  refine ⟨fun n x θ θ2 => rfl, ?_, ?_, ?_⟩
  · intro n x θ ht hdom
    simp [CNode.marginal_pdf, ht, hdom]
  · intro n x θ ht h1 h2
    have hdom : ¬ (x < n.domain.1 ∨ x > n.domain.2) := by
      simp only [not_or, not_lt]
      exact ⟨h1, h2⟩
    simp [CNode.marginal_pdf, ht, hdom]
  · intro n x θ ht
    simp [CNode.marginal_pdf, ht]

/-- C2 amended witness: the four conjuncts instantiated on nodeC2 and on the
child node cnAcycA. -/
theorem C2_marginal_pdf_amended_witness :
    CNode.marginal_pdf nodeC2 (1 / 2) [] = CNode.marginal_pdf nodeC2 (1 / 2) thetaC2
  ∧ CNode.marginal_pdf nodeC2 2 [] = .ok 0
  ∧ CNode.marginal_pdf nodeC2 (1 / 2) [] =
      .ok (nodeC2.marginalFun (1 / 2) nodeC2.dparamsKw)
  ∧ CNode.marginal_pdf cnAcycA 0 [] =
      .error (.valueError "Child nodes do not have a predefined marginal probability distribution.") :=
  ⟨C2_marginal_pdf_amended.1 nodeC2 (1 / 2) [] thetaC2,
   C2_marginal_pdf_amended.2.1 nodeC2 2 [] rfl (by norm_num [nodeC2]),
   C2_marginal_pdf_amended.2.2.1 nodeC2 (1 / 2) [] rfl (by norm_num [nodeC2])
     (by norm_num [nodeC2]),
   C2_marginal_pdf_amended.2.2.2 cnAcycA 0 [] rfl⟩

/-- C3: network construction does not detect cycles. The two child nodes
cnAcycA and cnAcycB, each the parent of the other, pass node construction,
and BayesianNetwork construction accepts them without any error even though
the induced edge set contains a directed cycle, contradicting the claimed
NotDAG failure and the docstring of the constructor. -/
theorem C3_cyclic_network_accepted :
    cnodeInit "A" (0, 1) ["B"] [] (some eqZeroC3) none none = .ok cnAcycA
  ∧ cnodeInit "B" (0, 1) ["A"] [] (some eqZeroC3) none none = .ok cnAcycB
  ∧ (cbNetworkInit [cnAcycA, cnAcycB]).map
      (fun net => (net.edges, existsCycle net.edges)) =
      .ok ([("B", "A"), ("A", "B")], true) :=
  ⟨rfl, rfl, rfl⟩

/-- C4 counterexample: normalising the factor tC4 divides by the total sum
of all entries, not by per-row sums over the last axis as the claim states;
the two results differ already in the first entry. -/
theorem C4_normalise_total_sum_counterexample :
    TFactor.normalise tC4 =
      .ok ⟨["A", "B"], ⟨[2, 2], [1/6, 1/6, 1/6, 1/2]⟩⟩
  ∧ normaliseSpecClaim 1 tC4.values = ⟨[2, 2], [1/2, 1/2, 1/4, 3/4]⟩
  ∧ (⟨[2, 2], [1/6, 1/6, 1/6, 1/2]⟩ : NDArray) ≠
      ⟨[2, 2], [1/2, 1/2, 1/4, 3/4]⟩ := by
  refine ⟨?_, ?_, by norm_num⟩
  · norm_num [TFactor.normalise, NDArray.total, tC4]
  · norm_num [normaliseSpecClaim, tC4, allIdx, NDArray.get, flatIndex,
      List.range_succ]

/-- C4 amended: Factor.normalise accepts no n_dimensions argument; it divides
every entry by the total sum taken over all axes, updating the receiver in
place, and a zero total raises ValueError instead of being short-circuited. -/
theorem C4_normalise_amended (f : TFactor) :
    ¬ "n_dimensions" ∈ factorNormaliseParamNames
  ∧ (f.values.total = 0 →
      TFactor.normalise f = .error (.valueError "The sum of the values is zero"))
  ∧ (f.values.total ≠ 0 →
      TFactor.normalise f =
        .ok ⟨f.scope, ⟨f.values.shape,
          f.values.data.map (fun q => q / f.values.total)⟩⟩) := by
  refine ⟨by decide, ?_, ?_⟩
  · intro h
    rw [TFactor.normalise, if_pos h]
  · intro h
    rw [TFactor.normalise, if_neg h]

/-- C4 amended witness: the zero-sum factor raises and the factor tC4 is
divided by its total sum of six. -/
theorem C4_normalise_amended_witness :
    ¬ "n_dimensions" ∈ factorNormaliseParamNames
  ∧ TFactor.normalise tC4zero = .error (.valueError "The sum of the values is zero")
  ∧ TFactor.normalise tC4 =
      .ok ⟨tC4.scope, ⟨tC4.values.shape,
        tC4.values.data.map (fun q => q / tC4.values.total)⟩⟩ :=
  ⟨(C4_normalise_amended tC4).1,
   (C4_normalise_amended tC4zero).2.1 (by norm_num [tC4zero, NDArray.total]),
   (C4_normalise_amended tC4).2.2 (by norm_num [tC4, NDArray.total])⟩

/-- C5 counterexample: the continuous marginalisation accepts a factor whose
scope is exactly the eliminated variable, returning a factor with an empty
scope instead of failing with the claimed CollapseToScalar guard. -/
theorem C5_continuous_single_scope_counterexample :
    (CBNetwork.marginaliseFactor quadZero netC5 gC5 "x").map CFactor.scope =
      .ok [] := by
  rfl

/-- C5 amended: the tabular sum_out rejects a variable outside the scope and
rejects a single-variable scope; the continuous marginalisation rejects only
a variable outside the scope and has no single-variable guard. -/
theorem C5_elimination_guards_amended :
    (∀ (f : TFactor) (v : String), ¬ v ∈ f.scope →
        TFactor.sum_out f v =
          .error (.valueError "The variable to sum out is not in the factor"))
  ∧ (∀ (f : TFactor) (v : String), v ∈ f.scope → f.scope.length = 1 →
        TFactor.sum_out f v =
          .error (.valueError "The variable is the only variable in the factor"))
  ∧ (∀ (quad : (ℚ → Except PyErr ℚ) → ℚ → ℚ → Except PyErr ℚ)
        (net : CBNetwork) (g : CFactor) (v : String), ¬ v ∈ g.scope →
        CBNetwork.marginaliseFactor quad net g v =
          .error (.valueErrorFor v "is not in the scope of the factor.")) := by
  refine ⟨?_, ?_, ?_⟩
  · intro f v hv
    rw [TFactor.sum_out, if_pos hv]
  · intro f v hv hlen
    rw [TFactor.sum_out, if_neg (not_not_intro hv), if_pos hlen]
  · intro quad net g v hv
    rw [CBNetwork.marginaliseFactor, if_pos hv]

/-- C5 amended witness: the three guard conjuncts at concrete factors. -/
theorem C5_elimination_guards_witness :
    TFactor.sum_out tC6 "C" =
      .error (.valueError "The variable to sum out is not in the factor")
  ∧ TFactor.sum_out tSingle "A" =
      .error (.valueError "The variable is the only variable in the factor")
  ∧ CBNetwork.marginaliseFactor quadZero netC5 gC5 "y" =
      .error (.valueErrorFor "y" "is not in the scope of the factor.") :=
  ⟨C5_elimination_guards_amended.1 tC6 "C" (by decide),
   C5_elimination_guards_amended.2.1 tSingle "A" (by decide) (by decide),
   C5_elimination_guards_amended.2.2 quadZero netC5 gC5 "y" (by decide)⟩

/-- C6 counterexample: the tabular evaluate rejects an assignment that covers
the whole scope and carries one extra variable, contradicting the claim that
extra variables are accepted by both representations. -/
theorem C6_tabular_extra_key_counterexample :
    TFactor.evaluate tC6 [("A", 0), ("B", 1), ("C", 0)] =
      .error (.valueError "The assignments are invalid") := by
  rfl

/-- C6 amended: the functional pdf fails with KeyError exactly when the scope
is not covered by the assignment keys, and succeeds on any node-built factor
once the scope is covered, extra keys included; the tabular evaluate instead
demands the assignment keys to be exactly the scope as a set, rejecting extra
variables, and succeeds when the key sets match and every value is within its
cardinality. -/
theorem C6_evaluation_amended :
    (∀ (g : CFactor) (vals θ : List (String × ℚ)),
        ¬ (∀ v ∈ g.scope, v ∈ keysOf vals) →
        CFactor.pdf g vals θ =
          .error (.keyError "The values of all variables in the scope must be provided."))
  ∧ (∀ (ρ : ℚ → ℚ → ℚ → ℚ) (node : CNode) (vals θ : List (String × ℚ)),
        (∀ v ∈ (cfactorInit ρ node).scope, v ∈ keysOf vals) →
        ∃ q, (cfactorInit ρ node).pdf vals θ = .ok q)
  ∧ (∀ (f : TFactor) (a : List (String × ℤ)),
        ¬ sameKeySet f.scope (keysOf a) = true →
        TFactor.evaluate f a = .error (.valueError "The assignments are invalid"))
  ∧ (∀ (f : TFactor) (a : List (String × ℤ)),
        sameKeySet f.scope (keysOf a) = true →
        (∀ p ∈ a, ¬ p.2 < 0 ∧
          ¬ (f.values.shape.getD (f.scope.indexOf p.1) 0 : ℤ) ≤ p.2) →
        ∃ q, TFactor.evaluate f a = .ok q) := by
  refine ⟨?_, ?_, ?_, ?_⟩
  · intro g vals θ h
    rw [CFactor.pdf, if_neg h]
  · intro ρ node vals θ h
    have hscope : ∀ v ∈ sortStrings (node.variable_name :: node.parent_variable_names),
        v ∈ keysOf vals := h
    have hname : node.variable_name ∈ keysOf vals :=
      hscope _ (mem_sortStrings.mpr (by simp))
    obtain ⟨x, hx⟩ := lookupE_ok hname
    rw [CFactor.pdf, if_pos h]
    show ∃ q, (cfactorInit ρ node).pdfImpl vals θ = .ok q
    rw [cfactorInit]
    by_cases ht : node.type = .ROOT
    · rw [if_pos ht]
      simp only [hx]
      rw [CNode.marginal_pdf]
      rw [if_neg (by simp [ht])]
      by_cases hdom : x < node.domain.1 ∨ x > node.domain.2
      · rw [if_pos hdom]
        exact ⟨0, rfl⟩
      · rw [if_neg hdom]
        exact ⟨_, rfl⟩
    · rw [if_neg ht]
      simp only [hx]
      have hparents : ∀ p ∈ node.parent_variable_names,
          ∃ v, (match lookupE vals p with
            | .error err => (Except.error err : Except PyErr (String × ℚ))
            | .ok v => Except.ok (p, v)) = .ok (p, v) := by
        intro p hp
        have hm : p ∈ keysOf vals :=
          hscope _ (mem_sortStrings.mpr (by simp [hp]))
        obtain ⟨v, hv⟩ := lookupE_ok hm
        exact ⟨v, by rw [hv]⟩
      have hmapM : ∃ ys, node.parent_variable_names.mapM (fun p =>
          match lookupE vals p with
          | .error err => (Except.error err : Except PyErr (String × ℚ))
          | .ok v => Except.ok (p, v)) = .ok ys := by
        apply mapM_ok
        intro p hp
        obtain ⟨v, hv⟩ := hparents p hp
        exact ⟨(p, v), hv⟩
      obtain ⟨ys, hys⟩ := hmapM
      simp only [hys]
      rw [CNode.conditional_pdf]
      rw [if_neg ht]
      by_cases hdom : x < node.domain.1 ∨ x > node.domain.2
      · rw [if_pos hdom]
        exact ⟨0, rfl⟩
      · rw [if_neg hdom]
        rw [CNode.equation, if_neg ht]
        exact ⟨_, rfl⟩
  · intro f a h
    rw [TFactor.evaluate, if_neg h]
  · intro f a hkeys hrange
    rw [TFactor.evaluate, if_pos hkeys]
    have hfind : a.find? (fun p =>
        decide (p.2 < 0) ||
        decide ((f.values.shape.getD (f.scope.indexOf p.1) 0 : ℤ) ≤ p.2)) = none := by
      rw [List.find?_eq_none]
      intro p hp
      obtain ⟨h1, h2⟩ := hrange p hp
      simp only [Bool.or_eq_true, decide_eq_true_eq, not_or]
      exact ⟨h1, h2⟩
    rw [hfind]
    exact ⟨_, rfl⟩

/-- C6 amended witness: the four conjuncts at concrete factors, with the
functional factor accepting an extra variable Z and the tabular factor
evaluated at its exact scope. -/
theorem C6_evaluation_amended_witness :
    CFactor.pdf gC5 [] [] =
      .error (.keyError "The values of all variables in the scope must be provided.")
  ∧ (∃ q, (cfactorInit normPdfZero nodeC2).pdf [("A", 1/2), ("Z", 3)] [] = .ok q)
  ∧ TFactor.evaluate tC6 [("A", 0)] =
      .error (.valueError "The assignments are invalid")
  ∧ (∃ q, TFactor.evaluate tC6 [("A", 0), ("B", 1)] = .ok q) :=
  ⟨C6_evaluation_amended.1 gC5 [] [] (by decide),
   C6_evaluation_amended.2.1 normPdfZero nodeC2 [("A", 1/2), ("Z", 3)] []
     (by decide),
   C6_evaluation_amended.2.2.1 tC6 [("A", 0)] (by decide),
   C6_evaluation_amended.2.2.2 tC6 [("A", 0), ("B", 1)] (by decide) (by decide)⟩

/-- C7: eliminating a variable that occurs in a scope of at least two
variables yields a factor whose scope is the original scope with the
variable removed and the order of the remaining variables preserved, for
both the tabular sum_out and the continuous marginalisation. -/
theorem C7_elimination_scope :
    (∀ (f : TFactor) (v : String), v ∈ f.scope → 2 ≤ f.scope.length →
        f.scope.Nodup → f.values.shape.length = f.scope.length →
        ∃ g, TFactor.sum_out f v = .ok g ∧ g.scope = f.scope.erase v)
  ∧ (∀ (quad : (ℚ → Except PyErr ℚ) → ℚ → ℚ → Except PyErr ℚ)
        (net : CBNetwork) (g : CFactor) (v : String),
        v ∈ g.scope → 2 ≤ g.scope.length → g.scope.Nodup → v ∈ keysOf net.nodes →
        ∃ g2, CBNetwork.marginaliseFactor quad net g v = .ok g2 ∧
          g2.scope = g.scope.erase v) := by
  constructor
  · intro f v hv hlen hnd hshape
    have hidx : f.scope.indexOf v < f.values.shape.length := by
      rw [hshape]
      exact List.indexOf_lt_length.mpr hv
    have hlen1 : ¬ f.scope.length = 1 := by omega
    have hfilter := filter_ne_eq_erase f.scope v hnd
    have herase : (f.scope.erase v).length = f.scope.length - 1 :=
      List.length_erase_of_mem hv
    have hsum : (f.values.sumAxis (f.scope.indexOf v)).shape.length =
        (f.scope.filter (fun w => decide (w ≠ v))).length := by
      simp only [NDArray.sumAxis]
      rw [List.length_eraseIdx_of_lt hidx, hfilter, herase, hshape]
    refine ⟨⟨f.scope.filter (fun w => decide (w ≠ v)),
             f.values.sumAxis (f.scope.indexOf v)⟩, ?_, ?_⟩
    · rw [TFactor.sum_out, if_neg (not_not_intro hv), if_neg hlen1, factorInit,
        if_neg (not_not_intro (hnd.filter _)), if_neg (not_not_intro hsum)]
    · exact hfilter
  · intro quad net g v hv hlen hnd hkey
    obtain ⟨node, hnode⟩ := lookupE_ok hkey
    refine ⟨⟨g.scope.filter (fun w => decide (w ≠ v)),
             fun vals θ => quad (fun t => g.pdf (dictInsert vals v t) θ)
               node.domain.1 node.domain.2⟩, ?_, ?_⟩
    · rw [CBNetwork.marginaliseFactor, if_neg (not_not_intro hv), hnode]
    · exact filter_ne_eq_erase g.scope v hnd

/-- C7 witness: sum_out on the factor over A and B at the variable A, and the
continuous marginalisation of the factor over x and y at the variable x. -/
theorem C7_elimination_scope_witness :
    (∃ g, TFactor.sum_out tC6 "A" = .ok g ∧ g.scope = (["A", "B"].erase "A"))
  ∧ (∃ g2, CBNetwork.marginaliseFactor quadZero netC5 gC7 "x" = .ok g2 ∧
      g2.scope = (["x", "y"].erase "x")) :=
  ⟨C7_elimination_scope.1 tC6 "A" (by decide) (by decide) (by decide) (by decide),
   C7_elimination_scope.2 quadZero netC5 gC7 "x" (by decide) (by decide)
     (by decide) (by decide)⟩

/-- C8: tabular factor multiplication is not commutative when the operands
share variables in different scope orders, because the other operand is
reshaped without transposition. On the failing input, the two product orders
evaluate at the same assignment to 2 and to 3, an exact discrepancy far
beyond the claimed 1e-10 relative tolerance. -/
theorem C8_multiplication_not_commutative :
    TFactor.multiply f1C8 f2C8 = .ok g12C8
  ∧ TFactor.multiply f2C8 f1C8 = .ok g21C8
  ∧ TFactor.evaluate g12C8 aC8 = .ok 2
  ∧ TFactor.evaluate g21C8 aC8 = .ok 3
  ∧ (2 : ℚ) ≠ 3 := by
  refine ⟨?_, ?_, ?_, ?_, by norm_num⟩
  · simp [TFactor.multiply, factorInit, f1C8, f2C8, g12C8, bcastMul,
      NDArray.reshape, bproj, allIdx, NDArray.get, flatIndex, List.range_succ,
      List.indexOf, List.findIdx, List.findIdx.go] <;> norm_num
  · simp [TFactor.multiply, factorInit, f1C8, f2C8, g21C8, bcastMul,
      NDArray.reshape, bproj, allIdx, NDArray.get, flatIndex, List.range_succ,
      List.indexOf, List.findIdx, List.findIdx.go] <;> norm_num
  · simp [TFactor.evaluate, g12C8, aC8, sameKeySet, keysOf, List.find?,
      NDArray.get, flatIndex, List.indexOf, List.findIdx, List.findIdx.go,
      List.lookup] <;> norm_num
  · simp [TFactor.evaluate, g21C8, aC8, sameKeySet, keysOf, List.find?,
      NDArray.get, flatIndex, List.indexOf, List.findIdx, List.findIdx.go,
      List.lookup] <;> norm_num

/-- C9: the joint density of a constructed network can be negative. Node
construction accepts the CPT with entries 2 and -1 because only the row sum
is checked, the network constructor accepts the node, the full assignment
A equal to 1 passes the joint-evaluation validation, and the returned joint
probability is -1, which is smaller than 0. -/
theorem C9_negative_joint_probability :
    nodeInit "A" [] cpdC9 = .ok nodeC9
  ∧ networkInit [nodeC9] = .ok netOneNode
  ∧ DNetwork.evaluate_joint_probability netOneNode [("A", 1)] = .ok (-1)
  ∧ ¬ (0 : ℚ) ≤ -1 := by
  have hname : ¬ (("A" : String).length = 0 ∨ 20 < ("A" : String).length) := by
    decide
  refine ⟨?_, rfl, ?_, by norm_num⟩
  · simp [nodeInit, cpdC9, npIsClose, NDArray.total, nodeC9, hname] <;> norm_num
  · simp [DNetwork.evaluate_joint_probability, sameKeySet, keysOf, nodeC9,
      netOneNode, cpdC9, List.find?, DNode.get_cardinality, jointLoop,
      DNode.compute_conditional_probability, parentAssignOf,
      DNode.get_conditional_distribution, NDArray.slice, NDArray.get, flatIndex,
      DNode.variable_name, DNode.parent_nodes, DNode.cpd] <;> norm_num

/-- C10: Factor.normalise mutates its receiver. Invoked on the uniform
factor f0C10, it leaves the values array divided by four in place of the
original one, so the post-state of the receiver differs from its pre-state,
while the docstring of the method promises a new factor. -/
theorem C10_normalise_mutates_receiver :
    TFactor.normalise f0C10 = .ok f1C10 ∧ f1C10.values ≠ f0C10.values := by
  constructor
  · simp [TFactor.normalise, NDArray.total, f0C10, f1C10] <;> norm_num
  · norm_num [f1C10, f0C10]
